import Mathlib

/-!
Shallow embedding of `src/main.py` (the ASISTEC backend): the external
search client `google_search`, the session registry `ConnectionManager`
with its websocket relay loop, and the `upload_file` endpoint.

External effects (the outbound HTTP call, the websocket receive/send
boundaries, the random uuid, the on-disk writes) are modelled as explicit
parameters: each theorem quantifies over every outcome those effects can
have, so the theorems cover all behaviours of the deterministic glue code
around them.
-/

/-- Environment configuration: the two credential variables read at startup
(`GOOGLE_API_KEY`, `GOOGLE_CSE_ID`); `none` models an unset variable. -/
structure Env where
  google_api_key : Option String
  google_cse_id : Option String
deriving DecidableEq

/-- Python truthiness of an optional string: `None` and `""` are falsy. -/
def truthy : Option String → Bool
  | none => false
  | some s => s != ""

/-- Embedding of the guard `GOOGLE_API_KEY and GOOGLE_CSE_ID` (main.py line 52). -/
def credsPresent (e : Env) : Bool :=
  truthy e.google_api_key && truthy e.google_cse_id

/-- One result item of the customsearch response (`data["items"]` entries);
`title`, `snippet` and `link` are read with `.get(..., '')` so they are
plain strings here. -/
structure SearchItem where
  title : String
  snippet : String
  link : String
deriving DecidableEq

/-- Outcome of the outbound HTTP request inside `google_search`'s try block:
either some exception was raised (timeout, DNS failure, connection reset, or
`raise_for_status` on a non-success status), carrying its rendered message,
or the call succeeded and the parsed body held the given item list. -/
inductive HttpOutcome where
  | failure (msg : String)
  | success (items : List SearchItem)
deriving DecidableEq

/-- Embedding of the loop body at main.py line 69:
`f"{i}. {it.get('title','')}\n{it.get('snippet','')}\n{it.get('link','')}\n"`. -/
def renderItem (i : Nat) (it : SearchItem) : String :=
  toString i ++ ". " ++ it.title ++ "\n" ++ it.snippet ++ "\n" ++ it.link ++ "\n"

/-- Embedding of `google_search` (main.py lines 51-70). `query` and
`max_results` are forwarded as request parameters and do not influence the
string built from a given outcome; they are kept so theorems can quantify
over them. The HTTP call itself is abstracted by `out`. -/
def google_search (e : Env) (query : String) (max_results : Nat)
    (out : HttpOutcome) : String :=
  if credsPresent e then
    match out with
    | .failure msg => "[Error en búsqueda: " ++ msg ++ "]"
    | .success items =>
      if items = [] then
        "[Sin resultados en Google]"
      else
        String.intercalate "\n"
          ((List.enumFrom 1 items).map (fun p => renderItem p.1 p.2))
  else
    "[Búsqueda deshabilitada: falta GOOGLE_API_KEY o GOOGLE_CSE_ID]"

/-- Modelled from the spec (section 4.2 and claim C5 wording): the entry for
the i-th result is the line "i. " ++ title, then the snippet line, then the
link line, each line terminated by a newline. -/
def specEntry (i : Nat) (it : SearchItem) : String :=
  (toString i ++ ". " ++ it.title ++ "\n") ++ ((it.snippet ++ "\n") ++ (it.link ++ "\n"))

/-- Modelled from the spec: entries of the rendering, 1-indexed, produced in
result-list order starting from index `i`. -/
def specEntriesFrom (i : Nat) : List SearchItem → List String
  | [] => []
  | it :: rest => specEntry i it :: specEntriesFrom (i + 1) rest

/-- Modelled from the spec (claim C5): the deterministically ordered,
1-indexed rendering of the result list, entries joined by newlines. -/
def specRendering (items : List SearchItem) : String :=
  String.intercalate "\n" (specEntriesFrom 1 items)

/- Session registry: `manager.memories` is a Python dict from client id to
a list of transcript lines. A dict with unique keys is modelled as an
association list; the operations act on every entry with the given key,
which coincides with dict behaviour on the unique-key lists reachable here. -/

/-- Transcript map: association list from client identifier to transcript. -/
abbrev Memories := List (String × List String)

/-- Dict lookup `memories[client_id]` / `client_id in memories`. -/
def memLookup (mem : Memories) (cid : String) : Option (List String) :=
  match mem with
  | [] => none
  | (k, v) :: rest => if k = cid then some v else memLookup rest cid

/-- Embedding of `memories.setdefault(client_id, [])` (main.py line 96):
insert an empty transcript only when the key is absent; Python dicts append
new keys at the end of the iteration order. -/
def memSetdefault (mem : Memories) (cid : String) : Memories :=
  if (memLookup mem cid).isSome then mem else mem ++ [(cid, [])]

/-- Embedding of `memories[client_id].append(...)` on a present key:
rewrite the entry for `cid` with `f` applied to its transcript. -/
def memUpdate (mem : Memories) (cid : String) (f : List String → List String) :
    Memories :=
  match mem with
  | [] => []
  | (k, v) :: rest =>
    if k = cid then (k, f v) :: memUpdate rest cid f
    else (k, v) :: memUpdate rest cid f

/-- Embedding of `memories.pop(client_id, None)` (main.py lines 129, 135):
remove the entry for `cid`; a no-op when the key is absent. -/
def memPop (mem : Memories) (cid : String) : Memories :=
  match mem with
  | [] => []
  | (k, v) :: rest =>
    if k = cid then memPop rest cid else (k, v) :: memPop rest cid

/-- Embedding of the `ConnectionManager` state (main.py lines 73-87):
connection handles are opaque, modelled as naturals. -/
structure ConnectionManager where
  active_connections : List Nat
  memories : Memories
deriving DecidableEq

/-- Embedding of `ConnectionManager.connect` (lines 78-80): accept and append
the handle to the active list. -/
def ConnectionManager.connect (m : ConnectionManager) (ws : Nat) :
    ConnectionManager :=
  { m with active_connections := m.active_connections ++ [ws] }

/-- Embedding of `ConnectionManager.disconnect` (lines 82-84): remove the
handle if present, otherwise no-op. -/
def ConnectionManager.disconnect (m : ConnectionManager) (ws : Nat) :
    ConnectionManager :=
  if ws ∈ m.active_connections then
    { m with active_connections := m.active_connections.erase ws }
  else m

/-- Embedding of the handshake part of `websocket_endpoint` (lines 93-96):
`manager.connect(websocket)` then `manager.memories.setdefault(client_id, [])`. -/
def websocket_connect (m : ConnectionManager) (ws : Nat) (cid : String) :
    ConnectionManager :=
  let m1 := m.connect ws
  { m1 with memories := memSetdefault m1.memories cid }

/-- Outcome of `websocket.receive_text()` for one loop iteration: a text
frame, a clean peer disconnect (`WebSocketDisconnect`), or any other
receiving error with its rendered message. -/
inductive RecvEvent where
  | text (data : String)
  | disconnected
  | recvError (msg : String)
deriving DecidableEq

/-- Result of one iteration of the relay loop: either the loop continues
with the new manager state and the texts delivered to the peer during the
iteration, or the session has ended with the given final manager state. -/
inductive StepResult where
  | looping (m : ConnectionManager) (sent : List String)
  | closed (m : ConnectionManager)
deriving DecidableEq

/-- Manager state carried by a step result. -/
def StepResult.manager : StepResult → ConnectionManager
  | .looping m _ => m
  | .closed m => m

/-- Embedding of the teardown in the `except WebSocketDisconnect` handler and
the generic `except Exception` handler (lines 127-137):
`manager.disconnect(websocket)` then `manager.memories.pop(client_id, None)`. -/
def ws_cleanup (m : ConnectionManager) (ws : Nat) (cid : String) :
    ConnectionManager :=
  let m1 := m.disconnect ws
  { m1 with memories := memPop m1.memories cid }

/-- Embedding of one iteration of the `while True` relay loop of
`websocket_endpoint` (main.py lines 98-137), given the receive event, the
outcome of the search HTTP call, and whether the send to the peer succeeds.
Faithful points: a clean disconnect runs full cleanup (disconnect + pop); a
receive error reports back and continues, and if that report itself fails to
send, the generic handler runs full cleanup; on a text frame, a missing
transcript key raises `KeyError`, reaching the generic handler (full
cleanup); if the final send fails, the code calls only
`manager.disconnect(websocket)` and `break`s out of the loop, so the
transcript is NOT popped on that path. -/
def websocket_step (e : Env) (ws : Nat) (cid : String) (m : ConnectionManager)
    (ev : RecvEvent) (out : HttpOutcome) (sendOk : Bool) : StepResult :=
  match ev with
  | .disconnected => .closed (ws_cleanup m ws cid)
  | .recvError msg =>
    if sendOk then .looping m ["Error al recibir mensaje: " ++ msg]
    else .closed (ws_cleanup m ws cid)
  | .text data =>
    let search_result := google_search e data 3 out
    let response := "Resultados de Google:\n" ++ search_result
    match memLookup m.memories cid with
    | none => .closed (ws_cleanup m ws cid)
    | some _ =>
      let m1 := { m with
        memories := memUpdate m.memories cid
          (fun t => t ++ ["Usuario: " ++ data, "ASISTEC: " ++ response]) }
      if sendOk then .looping m1 [response]
      else .closed (m1.disconnect ws)

/- Upload endpoint. -/

/-- Split a character list on '/' separators, keeping empty groups. -/
def splitSlash (cs : List Char) : List (List Char) :=
  match cs with
  | [] => [[]]
  | '/' :: rest => [] :: splitSlash rest
  | c :: rest =>
    match splitSlash rest with
    | [] => [[c]]
    | g :: gs => (c :: g) :: gs

/-- Embedding of `PurePosixPath(p).name`: the last path component, after
dropping empty and "." components. -/
def pyName (p : String) : List Char :=
  (((splitSlash p.toList).filter
      (fun g => decide (g ≠ [] ∧ g ≠ ['.']))).getLast?).getD []

/-- Embedding of pathlib's `suffix` on a file name: the part of the name from
its last dot, provided that dot is neither the first nor the last character;
otherwise the empty string. -/
def pySuffix (name : List Char) : List Char :=
  let t := name.reverse.takeWhile (fun c => c != '.')
  let i := name.length - 1 - t.length
  if 0 < i ∧ i < name.length - 1 then '.' :: t.reverse else []

/-- Embedding of `Path(file.filename).suffix.lower()` (main.py line 142);
lowercasing is done character-wise on the suffix. -/
def pathSuffixLower (filename : String) : String :=
  String.mk ((pySuffix (pyName filename)).map Char.toLower)

/-- Embedding of `ALLOWED_EXT` (main.py line 47). -/
def ALLOWED_EXT : List String :=
  [".txt", ".pdf", ".docx", ".csv", ".xlsx", ".json", ".png", ".jpg",
   ".jpeg", ".webp"]

/-- Embedding of FastAPI's `HTTPException` as raised by `upload_file`. -/
structure HTTPException where
  status_code : Nat
  detail : String
deriving DecidableEq

/-- Response body of a successful upload (main.py line 157). -/
structure UploadResponse where
  file_url : String
  filename : String
deriving DecidableEq

/-- Outcome of the disk write in `upload_file`'s try block: every open and
write succeeds; `aiofiles.open` itself raises (no file is created); or the
write of chunk `k` (0-based) raises, after chunks `0..k-1` were written to
the freshly created file. -/
inductive WriteOutcome where
  | ok : WriteOutcome
  | openFail : WriteOutcome
  | writeFail (k : Nat) : WriteOutcome
deriving DecidableEq

/-- Storage state: list of (path, byte content) pairs for files on disk
under the process working directory; `uploads/...` paths are also served
by the static mount at the URL path `/uploads/...`. -/
abbrev Storage := List (String × List Nat)

/-- Embedding of `upload_file` (main.py lines 140-157). `chunks` is the
sequence of non-empty reads of the request body, `uidHex` stands for
`uuid.uuid4().hex`, `w` is the outcome of the disk writes, and `storage`
is the state of the uploads directory before the call. Returns the HTTP
result together with the storage state after the call; note the source
performs no cleanup of a partially written file on failure. -/
def upload_file (filename : String) (chunks : List (List Nat))
    (uidHex : String) (w : WriteOutcome) (storage : Storage) :
    Except HTTPException UploadResponse × Storage :=
  let ext := pathSuffixLower filename
  if ext ∈ ALLOWED_EXT then
    let uid_name := uidHex ++ ext
    let path := "uploads/" ++ uid_name
    match w with
    | .ok =>
      (Except.ok ⟨"/uploads/" ++ uid_name, filename⟩,
       storage ++ [(path, chunks.flatten)])
    | .openFail => (Except.error ⟨500, "Error saving file"⟩, storage)
    | .writeFail k =>
      (Except.error ⟨500, "Error saving file"⟩,
       storage ++ [(path, (chunks.take k).flatten)])
  else
    (Except.error ⟨400, "File type not allowed"⟩, storage)

/-- Environment with both credentials unset, as in the disabled-search
scenario. -/
def envNone : Env := ⟨none, none⟩

/-- Environment with both credentials set to non-empty strings. -/
def envFull : Env := ⟨some "k", some "c"⟩

/- Helper lemmas about the registry operations. -/

/-- Lookup after an update: the transcript for `cid` is exactly the old one
with `f` applied. -/
theorem memLookup_memUpdate (mem : Memories) (cid : String)
    (f : List String → List String) :
    memLookup (memUpdate mem cid f) cid = (memLookup mem cid).map f := by
  induction mem with
  | nil => rfl
  | cons p rest ih =>
    obtain ⟨k, v⟩ := p
    by_cases h : k = cid <;> simp [memUpdate, memLookup, h, ih]

/-- Lookup after a pop: the key is gone. -/
theorem memLookup_memPop (mem : Memories) (cid : String) :
    memLookup (memPop mem cid) cid = none := by
  induction mem with
  | nil => rfl
  | cons p rest ih =>
    obtain ⟨k, v⟩ := p
    by_cases h : k = cid <;> simp [memPop, memLookup, h, ih]

/-- Lookup after appending a fresh empty transcript for an absent key. -/
theorem memLookup_append_single (mem : Memories) (cid : String)
    (h : memLookup mem cid = none) :
    memLookup (mem ++ [(cid, [])]) cid = some [] := by
  induction mem with
  | nil => simp [memLookup]
  | cons p rest ih =>
    obtain ⟨k, v⟩ := p
    by_cases hk : k = cid
    · simp [memLookup, hk] at h
    · simp only [memLookup, hk] at h
      simpa [memLookup, hk] using ih h

/-- Disconnecting never touches the transcript map. -/
theorem disconnect_memories (m : ConnectionManager) (ws : Nat) :
    (m.disconnect ws).memories = m.memories := by
  unfold ConnectionManager.disconnect
  split <;> rfl

/-- Disconnecting erases the handle from the active list (also when the
handle is absent, since erasing is then the identity). -/
theorem disconnect_active (m : ConnectionManager) (ws : Nat) :
    (m.disconnect ws).active_connections = m.active_connections.erase ws := by
  unfold ConnectionManager.disconnect
  split
  · rfl
  · exact (List.erase_of_not_mem (by assumption)).symm

/-- Entry strings of the spec-side rendering coincide with the source's
per-item format string. -/
theorem specEntry_eq_renderItem (i : Nat) (it : SearchItem) :
    specEntry i it = renderItem i it := by
  simp [specEntry, renderItem, String.append_assoc]

/-- Spec-side entry list coincides with the source's enumerate-and-format
loop, for every starting index. -/
theorem specEntriesFrom_eq (items : List SearchItem) :
    ∀ i, specEntriesFrom i items =
      (List.enumFrom i items).map (fun p => renderItem p.1 p.2) := by
  induction items with
  | nil => intro i; rfl
  | cons it rest ih =>
    intro i
    simp [specEntriesFrom, List.enumFrom, specEntry_eq_renderItem, ih]

/-- Claim C2: for every session and every text frame whose processing
completes (a search outcome is obtained and the response is built), exactly
two lines are appended to that session's transcript, in this order: the
user line holding the received text, then the system line holding the
response — whether or not the subsequent delivery succeeds. -/
theorem claim_C2 (e : Env) (ws : Nat) (cid : String) (m : ConnectionManager)
    (data : String) (out : HttpOutcome) (sendOk : Bool) (t : List String)
    (hmem : memLookup m.memories cid = some t) :
    memLookup (websocket_step e ws cid m (.text data) out sendOk).manager.memories
        cid =
      some (t ++ ["Usuario: " ++ data,
        "ASISTEC: " ++ ("Resultados de Google:\n" ++ google_search e data 3 out)]) := by
  cases sendOk <;>
    simp [websocket_step, hmem, StepResult.manager, disconnect_memories,
      memLookup_memUpdate]

/-- Witness for C2 at a concrete session and frame. -/
theorem claim_C2_witness :
    memLookup (websocket_step envNone 0 "alice" ⟨[0], [("alice", [])]⟩
        (.text "hola") (.failure "x") true).manager.memories "alice" =
      some ([] ++ ["Usuario: " ++ "hola",
        "ASISTEC: " ++
          ("Resultados de Google:\n" ++
            google_search envNone "hola" 3 (.failure "x"))]) :=
  claim_C2 envNone 0 "alice" ⟨[0], [("alice", [])]⟩ "hola" (.failure "x") true []
    (by decide)

/-- Claim C3: with either credential missing, `google_search` returns the
fixed disabled sentinel for every query, result count and request outcome,
and the relay's response to any received frame is exactly
"Resultados de Google:\n[Búsqueda deshabilitada: falta GOOGLE_API_KEY o
GOOGLE_CSE_ID]" — it is both sent to the peer and recorded in the
transcript's system line. -/
theorem claim_C3 (e : Env) (q : String) (n : Nat) (out : HttpOutcome)
    (ws : Nat) (cid : String) (m : ConnectionManager) (t : List String)
    (data : String)
    (hcreds : credsPresent e = false)
    (hmem : memLookup m.memories cid = some t) :
    google_search e q n out =
      "[Búsqueda deshabilitada: falta GOOGLE_API_KEY o GOOGLE_CSE_ID]" ∧
    websocket_step e ws cid m (.text data) out true =
      .looping
        { m with memories := memUpdate m.memories cid (fun tr => tr ++
            ["Usuario: " ++ data,
             "ASISTEC: Resultados de Google:\n[Búsqueda deshabilitada: falta GOOGLE_API_KEY o GOOGLE_CSE_ID]"]) }
        ["Resultados de Google:\n[Búsqueda deshabilitada: falta GOOGLE_API_KEY o GOOGLE_CSE_ID]"] := by
  have h1 : "Resultados de Google:\n" ++
      "[Búsqueda deshabilitada: falta GOOGLE_API_KEY o GOOGLE_CSE_ID]" =
      "Resultados de Google:\n[Búsqueda deshabilitada: falta GOOGLE_API_KEY o GOOGLE_CSE_ID]" := rfl
  have h2 : "ASISTEC: " ++
      "Resultados de Google:\n[Búsqueda deshabilitada: falta GOOGLE_API_KEY o GOOGLE_CSE_ID]" =
      "ASISTEC: Resultados de Google:\n[Búsqueda deshabilitada: falta GOOGLE_API_KEY o GOOGLE_CSE_ID]" := rfl
  refine ⟨by simp [google_search, hcreds], ?_⟩
  simp [websocket_step, hmem, google_search, hcreds, h1, h2]

/-- Witness for C3 at a concrete disabled environment, session and frame. -/
theorem claim_C3_witness :
    google_search envNone "weather today" 3 (.failure "x") =
      "[Búsqueda deshabilitada: falta GOOGLE_API_KEY o GOOGLE_CSE_ID]" ∧
    websocket_step envNone 0 "alice" ⟨[0], [("alice", [])]⟩
        (.text "weather today") (.failure "x") true =
      .looping
        { active_connections := [0],
          memories := memUpdate [("alice", [])] "alice" (fun tr => tr ++
            ["Usuario: " ++ "weather today",
             "ASISTEC: Resultados de Google:\n[Búsqueda deshabilitada: falta GOOGLE_API_KEY o GOOGLE_CSE_ID]"]) }
        ["Resultados de Google:\n[Búsqueda deshabilitada: falta GOOGLE_API_KEY o GOOGLE_CSE_ID]"] :=
  claim_C3 envNone "weather today" 3 (.failure "x") 0 "alice"
    ⟨[0], [("alice", [])]⟩ [] "weather today" (by decide) (by decide)

/-- Claim C4: with credentials present, every failing outbound request —
whatever its rendered failure detail — makes `google_search` return the
error sentinel embedding that detail; the embedding is a total String
function, so no error is propagated to the caller. -/
theorem claim_C4 (e : Env) (q : String) (n : Nat) (msg : String)
    (hcreds : credsPresent e = true) :
    google_search e q n (.failure msg) = "[Error en búsqueda: " ++ msg ++ "]" := by
  simp [google_search, hcreds]

/-- Witness for C4 at a concrete environment and failure detail. -/
theorem claim_C4_witness :
    google_search envFull "q" 3 (.failure "ReadTimeout") =
      "[Error en búsqueda: " ++ "ReadTimeout" ++ "]" :=
  claim_C4 envFull "q" 3 "ReadTimeout" (by decide)

/-- Claim C5: with credentials present, a successful response with zero
results yields the fixed no-results sentinel, and a successful response
with results yields exactly the spec's deterministically ordered, 1-indexed,
newline-separated rendering of title, snippet and link. -/
theorem claim_C5 (e : Env) (q : String) (n : Nat) (items : List SearchItem)
    (hcreds : credsPresent e = true) :
    (items = [] →
      google_search e q n (.success items) = "[Sin resultados en Google]") ∧
    (items ≠ [] →
      google_search e q n (.success items) = specRendering items) := by
  constructor
  · intro h
    simp [google_search, hcreds, h]
  · intro h
    simp [google_search, hcreds, h, specRendering, specEntriesFrom_eq]

/-- Witness for C5 at a concrete environment, an empty and a two-item
result list. -/
theorem claim_C5_witness :
    google_search envFull "q" 3 (.success []) = "[Sin resultados en Google]" ∧
    google_search envFull "q" 3
        (.success [⟨"T1", "S1", "L1"⟩, ⟨"T2", "S2", "L2"⟩]) =
      specRendering [⟨"T1", "S1", "L1"⟩, ⟨"T2", "S2", "L2"⟩] :=
  ⟨(claim_C5 envFull "q" 3 [] (by decide)).1 rfl,
   (claim_C5 envFull "q" 3 [⟨"T1", "S1", "L1"⟩, ⟨"T2", "S2", "L2"⟩]
      (by decide)).2 (by decide)⟩

/-- Manager state reached by: fresh start, "alice" connects on handle 0,
one frame "hola" is processed with search disabled and delivered. Used as a
concrete reachable state with a non-empty transcript. -/
def aliceBusy : ConnectionManager :=
  (websocket_step envNone 0 "alice" (websocket_connect ⟨[], []⟩ 0 "alice")
    (.text "hola") (.failure "boom") true).manager

/-- Counterexample to claim C1 as stated: in the reachable state
`aliceBusy`, delivery of the next response fails; the session closes, the
handle is removed from the active set, yet a later lookup for "alice" still
finds the transcript — the error-close path never pops it (the `break` at
main.py line 125 leaves the loop without reaching the pop at line 129). -/
theorem claim_C1_counterexample :
    (∃ d, websocket_step envNone 0 "alice" aliceBusy (.text "otra")
        (.failure "boom") false = .closed d) ∧
    ((websocket_step envNone 0 "alice" aliceBusy (.text "otra")
        (.failure "boom") false).manager).active_connections = [] ∧
    memLookup ((websocket_step envNone 0 "alice" aliceBusy (.text "otra")
        (.failure "boom") false).manager).memories "alice" ≠ none :=
  ⟨⟨_, rfl⟩, by decide, by decide⟩

/-- Claim C1 as amended: on a clean peer disconnect the handle is removed
from the active set and the transcript under the session identifier is
cleared, so a later lookup finds nothing; on delivery failure the handle is
likewise removed, but the transcript (including the lines appended for the
undelivered response) is retained. -/
theorem claim_C1_amended (e : Env) (ws : Nat) (cid : String)
    (m : ConnectionManager) (out : HttpOutcome) (sendOk : Bool) (data : String)
    (t : List String)
    (hmem : memLookup m.memories cid = some t) :
    (∃ c, websocket_step e ws cid m .disconnected out sendOk = .closed c ∧
      c.active_connections = m.active_connections.erase ws ∧
      memLookup c.memories cid = none) ∧
    (∃ d, websocket_step e ws cid m (.text data) out false = .closed d ∧
      d.active_connections = m.active_connections.erase ws ∧
      memLookup d.memories cid =
        some (t ++ ["Usuario: " ++ data,
          "ASISTEC: " ++
            ("Resultados de Google:\n" ++ google_search e data 3 out)])) := by
  constructor
  · refine ⟨ws_cleanup m ws cid, rfl, ?_, ?_⟩
    · simp [ws_cleanup, disconnect_active, disconnect_memories]
    · simp [ws_cleanup, disconnect_memories, memLookup_memPop]
  · have hstep : websocket_step e ws cid m (.text data) out false =
        .closed (ConnectionManager.disconnect
          ⟨m.active_connections,
           memUpdate m.memories cid (fun tr =>
             tr ++ ["Usuario: " ++ data,
               "ASISTEC: " ++
                 ("Resultados de Google:\n" ++ google_search e data 3 out)])⟩
          ws) := by
      simp [websocket_step, hmem]
    refine ⟨_, hstep, ?_, ?_⟩
    · simp [disconnect_active]
    · simp [disconnect_memories, memLookup_memUpdate, hmem]

/-- Witness for the amended C1 at a concrete session with an empty
transcript. -/
theorem claim_C1_witness :
    (∃ c, websocket_step envNone 0 "alice" ⟨[0], [("alice", [])]⟩ .disconnected
        (.failure "x") true = .closed c ∧
      c.active_connections = List.erase [0] 0 ∧
      memLookup c.memories "alice" = none) ∧
    (∃ d, websocket_step envNone 0 "alice" ⟨[0], [("alice", [])]⟩
        (.text "hola") (.failure "x") false = .closed d ∧
      d.active_connections = List.erase [0] 0 ∧
      memLookup d.memories "alice" =
        some ([] ++ ["Usuario: " ++ "hola",
          "ASISTEC: " ++
            ("Resultados de Google:\n" ++
              google_search envNone "hola" 3 (.failure "x"))])) :=
  claim_C1_amended envNone 0 "alice" ⟨[0], [("alice", [])]⟩ (.failure "x") true
    "hola" [] (by decide)

/-- Counterexample to claim C6 as stated: in the reachable state
`aliceBusy` the transcript for "alice" already has two lines; a second
handshake under the same identifier (handle 1) completes, and immediately
afterwards the transcript stored under "alice" is NOT the empty sequence —
`setdefault` keeps the existing entries. -/
theorem claim_C6_counterexample :
    memLookup (websocket_connect aliceBusy 1 "alice").memories "alice" ≠
      some [] := by decide

/-- Claim C6 as amended: on every transition from Connecting to Open the
handle is appended to the active set, and an empty transcript is
initialized for the session identifier only when none exists yet: after a
handshake under a previously unused identifier the stored transcript is the
empty sequence, while an existing transcript is preserved unchanged. -/
theorem claim_C6_amended (m : ConnectionManager) (ws : Nat) (cid : String) :
    (websocket_connect m ws cid).active_connections =
      m.active_connections ++ [ws] ∧
    (memLookup m.memories cid = none →
      memLookup (websocket_connect m ws cid).memories cid = some []) ∧
    (∀ t, memLookup m.memories cid = some t →
      memLookup (websocket_connect m ws cid).memories cid = some t) := by
  refine ⟨rfl, ?_, ?_⟩
  · intro h
    simp [websocket_connect, ConnectionManager.connect, memSetdefault, h,
      memLookup_append_single _ _ h]
  · intro t h
    simp [websocket_connect, ConnectionManager.connect, memSetdefault, h]

/-- Witness for the amended C6: a fresh identifier gets the empty
transcript, and a counterpart identifier with an existing transcript keeps
it. -/
theorem claim_C6_witness :
    ((websocket_connect ⟨[], [("bob", ["Usuario: eh"])]⟩ 0 "alice").active_connections =
      [] ++ [0] ∧
    (memLookup [("bob", ["Usuario: eh"])] "alice" = none →
      memLookup (websocket_connect ⟨[], [("bob", ["Usuario: eh"])]⟩ 0
        "alice").memories "alice" = some []) ∧
    (∀ t, memLookup [("bob", ["Usuario: eh"])] "alice" = some t →
      memLookup (websocket_connect ⟨[], [("bob", ["Usuario: eh"])]⟩ 0
        "alice").memories "alice" = some t)) ∧
    memLookup (websocket_connect ⟨[], [("bob", ["Usuario: eh"])]⟩ 0
      "alice").memories "alice" = some [] :=
  ⟨claim_C6_amended ⟨[], [("bob", ["Usuario: eh"])]⟩ 0 "alice",
   (claim_C6_amended ⟨[], [("bob", ["Usuario: eh"])]⟩ 0 "alice").2.1 (by decide)⟩

/-- Claim C10: with a connection `ws1` open under identifier `cid` and a
transcript `t` already stored, a second handshake on `ws2` under the same
identifier preserves the stored entries rather than resetting them; a clean
disconnect of `ws1` then removes the transcript while `ws2` is still in the
active set; and the surviving connection's next text frame finds no
sequence under its identifier, so its transcript append hits the `KeyError`
path and the session is torn down. -/
theorem claim_C10 (e : Env) (m : ConnectionManager) (cid : String)
    (t : List String) (ws1 ws2 : Nat) (out : HttpOutcome) (sendOk : Bool)
    (data : String)
    (hmem : memLookup m.memories cid = some t)
    (hopen : ws1 ∈ m.active_connections)
    (hne : ws2 ≠ ws1) :
    memLookup (websocket_connect m ws2 cid).memories cid = some t ∧
    (websocket_step e ws1 cid (websocket_connect m ws2 cid) .disconnected out
        sendOk =
      .closed (ws_cleanup (websocket_connect m ws2 cid) ws1 cid) ∧
      memLookup (ws_cleanup (websocket_connect m ws2 cid) ws1 cid).memories
        cid = none ∧
      ws2 ∈ (ws_cleanup (websocket_connect m ws2 cid) ws1
        cid).active_connections) ∧
    websocket_step e ws2 cid (ws_cleanup (websocket_connect m ws2 cid) ws1 cid)
        (.text data) out sendOk =
      .closed (ws_cleanup (ws_cleanup (websocket_connect m ws2 cid) ws1 cid)
        ws2 cid) := by
  have hpres : memLookup (websocket_connect m ws2 cid).memories cid = some t := by
    simp [websocket_connect, ConnectionManager.connect, memSetdefault, hmem]
  have hgone : memLookup (ws_cleanup (websocket_connect m ws2 cid) ws1
      cid).memories cid = none := by
    simp [ws_cleanup, disconnect_memories, memLookup_memPop]
  refine ⟨hpres, ⟨rfl, hgone, ?_⟩, ?_⟩
  · simp [ws_cleanup, disconnect_active, websocket_connect,
      ConnectionManager.connect]
    exact (List.mem_erase_of_ne hne).mpr (by simp)
  · cases sendOk <;> simp [websocket_step, hgone]

/-- Witness for C10: the full two-connection scenario under identifier
"alice", starting from the reachable state `aliceBusy` (handle 0 open,
two transcript lines stored), with handle 1 as the second connection. -/
theorem claim_C10_witness :
    memLookup (websocket_connect aliceBusy 1 "alice").memories "alice" =
      some ["Usuario: hola",
        "ASISTEC: Resultados de Google:\n[Búsqueda deshabilitada: falta GOOGLE_API_KEY o GOOGLE_CSE_ID]"] ∧
    (websocket_step envNone 0 "alice" (websocket_connect aliceBusy 1 "alice")
        .disconnected (.failure "x") true =
      .closed (ws_cleanup (websocket_connect aliceBusy 1 "alice") 0 "alice") ∧
      memLookup (ws_cleanup (websocket_connect aliceBusy 1 "alice") 0
        "alice").memories "alice" = none ∧
      1 ∈ (ws_cleanup (websocket_connect aliceBusy 1 "alice") 0
        "alice").active_connections) ∧
    websocket_step envNone 1 "alice"
        (ws_cleanup (websocket_connect aliceBusy 1 "alice") 0 "alice")
        (.text "sigues ahi") (.failure "x") true =
      .closed (ws_cleanup
        (ws_cleanup (websocket_connect aliceBusy 1 "alice") 0 "alice") 1
        "alice") :=
  claim_C10 envNone aliceBusy "alice"
    ["Usuario: hola",
     "ASISTEC: Resultados de Google:\n[Búsqueda deshabilitada: falta GOOGLE_API_KEY o GOOGLE_CSE_ID]"]
    0 1 (.failure "x") true "sigues ahi" (by decide) (by decide) (by decide)

/-- Claim C7: every uploaded filename whose lowercased extension is outside
the allow-list is rejected with the 400 client error, and the storage state
is unchanged — no file is written, whatever the body chunks, generated name
or write outcome would have been. -/
theorem claim_C7 (filename : String) (chunks : List (List Nat))
    (uidHex : String) (w : WriteOutcome) (storage : Storage)
    (hext : pathSuffixLower filename ∉ ALLOWED_EXT) :
    upload_file filename chunks uidHex w storage =
      (Except.error ⟨400, "File type not allowed"⟩, storage) := by
  simp [upload_file, hext]

/-- Witness for C7: uploading "malware.exe" is rejected and writes
nothing. -/
theorem claim_C7_witness :
    pathSuffixLower "malware.exe" ∉ ALLOWED_EXT ∧
    upload_file "malware.exe" [[77, 90]] "cafe" .ok [] =
      (Except.error ⟨400, "File type not allowed"⟩, []) :=
  ⟨by decide, claim_C7 "malware.exe" [[77, 90]] "cafe" .ok [] (by decide)⟩

/-- Claim C8: for every allowed upload whose generated name does not collide
with the original filename (`uuid4().hex` is fresh, so a collision would
require the client to guess the 32-hex token), success returns a `file_url`
equal to "/uploads/" ++ generated-name, which ends in the original file's
lowercased extension, whose basename differs from the original name, and
the returned `filename` is the original exactly as received. -/
theorem claim_C8 (filename : String) (chunks : List (List Nat))
    (uidHex : String) (storage : Storage)
    (hallow : pathSuffixLower filename ∈ ALLOWED_EXT)
    (hfresh : uidHex ++ pathSuffixLower filename ≠ filename) :
    (upload_file filename chunks uidHex .ok storage).1 =
      Except.ok ⟨"/uploads/" ++ (uidHex ++ pathSuffixLower filename), filename⟩ ∧
    (∃ p, "/uploads/" ++ (uidHex ++ pathSuffixLower filename) =
      p ++ pathSuffixLower filename) ∧
    uidHex ++ pathSuffixLower filename ≠ filename := by
  refine ⟨?_, ⟨"/uploads/" ++ uidHex, ?_⟩, hfresh⟩
  · simp [upload_file, hallow]
  · simp [String.append_assoc]

/-- Witness for C8: uploading "report.csv" with a concrete 32-hex generated
token yields "/uploads/<token>.csv" and echoes the original filename. -/
theorem claim_C8_witness :
    pathSuffixLower "report.csv" ∈ ALLOWED_EXT ∧
    "0123456789abcdef0123456789abcdef" ++ pathSuffixLower "report.csv" ≠
      "report.csv" ∧
    ((upload_file "report.csv" [[1, 2, 3]] "0123456789abcdef0123456789abcdef"
        .ok []).1 =
      Except.ok ⟨"/uploads/" ++ ("0123456789abcdef0123456789abcdef" ++
        pathSuffixLower "report.csv"), "report.csv"⟩ ∧
    (∃ p, "/uploads/" ++ ("0123456789abcdef0123456789abcdef" ++
        pathSuffixLower "report.csv") = p ++ pathSuffixLower "report.csv") ∧
    "0123456789abcdef0123456789abcdef" ++ pathSuffixLower "report.csv" ≠
      "report.csv") :=
  ⟨by decide, by decide,
   claim_C8 "report.csv" [[1, 2, 3]] "0123456789abcdef0123456789abcdef" []
     (by decide) (by decide)⟩

/-- Counterexample to claim C9 as stated: an allowed upload of "notes.txt"
whose second chunk write fails returns the 500 server error, but the
storage now holds the partially written file — bytes [1, 2] of the full
[1, 2, 3, 4] — at exactly the generated path "uploads/cafe.txt", which the
static mount serves at "/uploads/cafe.txt"; a partial artifact IS
discoverable there. -/
theorem claim_C9_counterexample :
    (upload_file "notes.txt" [[1, 2], [3, 4]] "cafe" (.writeFail 1) []).1 =
      Except.error ⟨500, "Error saving file"⟩ ∧
    (upload_file "notes.txt" [[1, 2], [3, 4]] "cafe" (.writeFail 1) []).2 =
      [("uploads/cafe.txt", [1, 2])] ∧
    ([1, 2] : List Nat) ≠ [[1, 2], [3, 4]].flatten := by
  refine ⟨rfl, by decide, by decide⟩

/-- Claim C9 as amended: for every allowed upload on which writing to disk
fails partway (at chunk `k`), the handler fails with the 500 server error
and does not claim success; however it performs no cleanup, so the
partially written bytes (the flattening of the first `k` chunks) remain in
a file at the generated storage path. -/
theorem claim_C9_amended (filename : String) (chunks : List (List Nat))
    (uidHex : String) (k : Nat) (storage : Storage)
    (hallow : pathSuffixLower filename ∈ ALLOWED_EXT) :
    (upload_file filename chunks uidHex (.writeFail k) storage).1 =
      Except.error ⟨500, "Error saving file"⟩ ∧
    (upload_file filename chunks uidHex (.writeFail k) storage).2 =
      storage ++ [("uploads/" ++ (uidHex ++ pathSuffixLower filename),
        (chunks.take k).flatten)] := by
  constructor <;> simp [upload_file, hallow]

/-- Witness for the amended C9 at a concrete failing upload. -/
theorem claim_C9_witness :
    (upload_file "data.csv" [[9, 8], [7]] "beef" (.writeFail 1) []).1 =
      Except.error ⟨500, "Error saving file"⟩ ∧
    (upload_file "data.csv" [[9, 8], [7]] "beef" (.writeFail 1) []).2 =
      [] ++ [("uploads/" ++ ("beef" ++ pathSuffixLower "data.csv"),
        ([[9, 8], [7]].take 1).flatten)] :=
  claim_C9_amended "data.csv" [[9, 8], [7]] "beef" 1 [] (by decide)
